import Mathlib

/-!
Verification development for the labspace-generator repository.

The embedding follows `src/server.js`: class `RepositoryAnalyzer`
(detection engine: `detectTechStack`, `detectServices`, `extractPorts`,
`estimateSetupTime`, assembled by `analyzeRepository` into the analysis
result) and class `LabspaceGenerator` (artifact synthesizer:
`generateDockerCompose`, `generateDevContainer`, `generateVSCodeSettings`,
`generateVSCodeExtensions`, `generateReadme`, `generateStartupScript`,
assembled by `generateLabspace`).

External collaborators are modelled as oracle parameters:
the network fetch of a file's content (`fetchFileContent`) is a
`String → Option String` (a `none` result models a failed fetch, which the
source catches and tolerates), and the host JSON parser (`JSON.parse`,
applied to the Node package descriptor) is a
`String → Option PackageJson` (a `none` result models the `SyntaxError`
that `JSON.parse` throws on malformed text).

Machine integers do not occur (ports and counts are small JS numbers used
as exact integers); the only fractional arithmetic (`0.5` per stack entry
in `estimateSetupTime`) is exact in binary floating point, so the formula
is embedded over `Nat` scaled by 2.
-/

/-! ## JavaScript-style string and option helpers -/

/-- JS `a || d` for an optional number: `undefined` and `0` are falsy. -/
def jsOrNat : Option Nat → Nat → Nat
  | none, d => d
  | some n, d => if n = 0 then d else n

/-- JS `a || d` for an optional string: `undefined` and `""` are falsy. -/
def jsOrStr : Option String → String → String
  | none, d => d
  | some s, d => if s = "" then d else s

/-- JS truthiness of an optional string (`undefined` and `""` are falsy). -/
def truthy : Option String → Bool
  | none => false
  | some s => s != ""

/-- Substring test on character lists (JS `String.prototype.includes`). -/
def containsSub (needle : List Char) : List Char → Bool
  | [] => needle.isEmpty
  | c :: rest => needle.isPrefixOf (c :: rest) || containsSub needle rest

/-- JS `s.includes(t)`. -/
def jsIncludes (s t : String) : Bool := containsSub t.data s.data

/-- JS `s.startsWith(t)`. -/
def strStartsWith (s t : String) : Bool := t.data.isPrefixOf s.data

/-- JS `s.endsWith(t)`. -/
def strEndsWith (s t : String) : Bool := t.data.isSuffixOf s.data

/-- JS `s.trim()` (whitespace at both ends removed; the source only ever
trims ASCII-spaced manifest lines, so `Char.isWhitespace` is faithful). -/
def trimStr (s : String) : String :=
  String.mk (((s.data.dropWhile Char.isWhitespace).reverse.dropWhile
    Char.isWhitespace).reverse)

/-- JS `String.prototype.split` on character lists: splits at each
leftmost, non-overlapping occurrence of the (non-empty) separator. The
first argument is recursion fuel (structural, so the function reduces in
the kernel); callers pass the text's length, which always suffices since
every step consumes at least one character. -/
def splitChars (sep : List Char) : Nat → List Char → List (List Char)
  | _, [] => [[]]
  | 0, l => [l]
  | fuel + 1, c :: rest =>
    if sep.isPrefixOf (c :: rest) then
      [] :: splitChars sep fuel (List.drop (sep.length - 1) rest)
    else
      match splitChars sep fuel rest with
      | [] => [[c]]
      | seg :: segs => (c :: seg) :: segs

/-- JS `s.split(sep)` for a non-empty separator. -/
def stringSplitOn (s sep : String) : List String :=
  (splitChars sep.data s.data.length s.data).map String.mk

/-! ## Data model (section 2 of `server.js`: analyzer inputs/outputs) -/

/-- One entry of the fetched file structure (`fetchFileStructure` pushes
`{path, name, size}`; the byte size is never consulted afterwards). -/
structure FileEntry where
  path : String
  name : String
deriving DecidableEq, Repr

/-- The result of `JSON.parse` on the Node package descriptor, restricted
to the fields `detectTechStack` reads: `engines?.node` (flattened to an
option), the key sequences of `dependencies` and `devDependencies` in
object-key order, and the `scripts` mapping. -/
structure PackageJson where
  enginesNode : Option String
  dependencies : List String
  devDependencies : List String
  scripts : List (String × String)
deriving DecidableEq, Repr

/-- A detected tech-stack entry (`techStack.push({...})` objects). Fields
that a given builder does not set keep their defaults. -/
structure TechStackEntry where
  name : String
  icon : String
  version : String
  dependencies : List String := []
  devDependencies : List String := []
  scripts : List (String × String) := []
  buildTool : Option String := none
deriving DecidableEq, Repr

/-- A detected service entry (`services.push({name, type, port})`). -/
structure ServiceEntry where
  name : String
  type : String
  port : Nat
deriving DecidableEq, Repr

/-- The analysis result assembled by `analyzeRepository` (the spec's
`StackProfile`): the sole input of every generator. -/
structure StackProfile where
  owner : String
  name : String
  description : String
  files : List String
  techStack : List TechStackEntry
  services : List ServiceEntry
  ports : List Nat
  hasDocker : Bool
  hasTests : Bool
  estimatedSetupTime : String
deriving DecidableEq, Repr

/-! ## Manifest-content parsers used by the stack builders -/

/-- Maximal leading run of ASCII digits (regex `\d+`). -/
def takeDigits : List Char → List Char × List Char
  | [] => ([], [])
  | c :: rest =>
    if c.isDigit then
      let (d, r) := takeDigits rest
      (c :: d, r)
    else ([], c :: rest)

/-- Attempt of the regex `go (\d+\.\d+)` at the head of the text; returns
the captured version token. -/
def goVersionAt : List Char → Option String
  | 'g' :: 'o' :: ' ' :: rest =>
    let (d1, r1) := takeDigits rest
    if d1.isEmpty then none
    else
      match r1 with
      | '.' :: r2 =>
        let (d2, _) := takeDigits r2
        if d2.isEmpty then none else some (String.mk (d1 ++ '.' :: d2))
      | _ => none
  | _ => none

/-- Leftmost match of `go (\d+\.\d+)` (source line 153:
`goModContent.match(/go (\d+\.\d+)/)?.[1]`). -/
def findGoVersion : List Char → Option String
  | [] => none
  | c :: rest => (goVersionAt (c :: rest)).orElse (fun _ => findGoVersion rest)

/-- Single-quote and double-quote characters (written via code points so
that the embedding never puts a quote inside a character literal). -/
def squoteC : Char := Char.ofNat 39

/-- Double-quote character. -/
def dquoteC : Char := Char.ofNat 34

/-- A JS-regex line terminator (`.` in a JS regex matches anything else). -/
def isLineTerm (c : Char) : Bool := c = '\n' || c = '\r'

/-- Lazy scan of `(.+?)['"]` once at least one character was captured:
closes at the first quote, fails at a line terminator. -/
def rubyCaptureGo (acc : List Char) : List Char → Option String
  | [] => none
  | c :: rest =>
    if c = squoteC || c = dquoteC then some (String.mk acc.reverse)
    else if isLineTerm c then none
    else rubyCaptureGo (c :: acc) rest

/-- The `(.+?)['"]` tail of the Ruby version regex: captures at least one
non-terminator character, then closes at the earliest quote. -/
def rubyCaptureAfterOpen : List Char → Option String
  | [] => none
  | c :: rest => if isLineTerm c then none else rubyCaptureGo [c] rest

/-- Attempt of the regex `ruby ['"](.+?)['"]` at the head of the text. -/
def rubyVersionAt : List Char → Option String
  | 'r' :: 'u' :: 'b' :: 'y' :: ' ' :: q :: rest =>
    if q = squoteC || q = dquoteC then rubyCaptureAfterOpen rest else none
  | _ => none

/-- Leftmost match of `ruby ['"](.+?)['"]` (source line 174). -/
def findRubyVersion : List Char → Option String
  | [] => none
  | c :: rest => (rubyVersionAt (c :: rest)).orElse (fun _ => findRubyVersion rest)

/-! ## Stack-entry builders (source lines 123-216) -/

/-- Node.js entry (source lines 124-134): version from the engine
constraint with JS `||` default, first 8 runtime and first 5 development
dependency names in manifest order, and the scripts mapping. -/
def nodeEntry (pkg : PackageJson) : TechStackEntry :=
  { name := "Node.js", icon := "🟢",
    version := jsOrStr pkg.enginesNode ">=16.0.0",
    dependencies := pkg.dependencies.take 8,
    devDependencies := pkg.devDependencies.take 5,
    scripts := pkg.scripts }

/-- The requirement lines kept by the Python builder's filter (source
lines 138-139): non-blank after trimming and not starting with `#`. -/
def pythonFilteredLines (s : String) : List String :=
  (stringSplitOn s "\n").filter
    (fun line => (trimStr line != "") && !(strStartsWith line "#"))

/-- `slice(0, 10)` of the filtered requirement lines (source line 140). -/
def requirementLines (s : String) : List String :=
  (pythonFilteredLines s).take 10

/-- `req.split('==')[0].split('>=')[0].trim()` (source line 146). -/
def stripSpecifier (req : String) : String :=
  trimStr (((stringSplitOn ((stringSplitOn req "==").headD req) ">=")).headD req)

/-- Python entry (source lines 137-148). -/
def pythonEntry (s : String) : TechStackEntry :=
  { name := "Python", icon := "🐍", version := "3.9+",
    dependencies := (requirementLines s).map stripSpecifier }

/-- Go entry (source lines 151-159). -/
def goEntry (s : String) : TechStackEntry :=
  { name := "Go", icon := "🐹", version := (findGoVersion s.data).getD "latest" }

/-- Java entry (source lines 163-170); the build tool is `Maven` exactly
when the Maven descriptor was the (truthy) trigger. -/
def javaEntry (pomTruthy : Bool) : TechStackEntry :=
  { name := "Java", icon := "☕", version := "11+",
    buildTool := some (if pomTruthy then "Maven" else "Gradle") }

/-- Ruby entry (source lines 173-179). -/
def rubyEntry (s : String) : TechStackEntry :=
  { name := "Ruby", icon := "💎", version := (findRubyVersion s.data).getD "latest" }

/-- Rust entry (source lines 183-189). -/
def rustEntry : TechStackEntry := { name := "Rust", icon := "🦀", version := "latest" }

/-- PHP entry (source lines 192-198). -/
def phpEntry : TechStackEntry := { name := "PHP", icon := "🐘", version := "8.1+" }

/-- Dart/Flutter entry (source lines 201-207). -/
def dartEntry : TechStackEntry :=
  { name := "Dart/Flutter", icon := "🎯", version := "latest" }

/-- Docker entry (source lines 210-216). -/
def dockerEntry : TechStackEntry :=
  { name := "Docker", icon := "🐳", version := "latest" }

/-! ## Detection engine -/

/-- The fixed list of fetched configuration files (source lines 100-110). -/
def keyFiles : List String :=
  ["package.json", "requirements.txt", "Gemfile", "go.mod", "pom.xml",
   "build.gradle", "Cargo.toml", "composer.json", "pubspec.yaml"]

/-- The `configFiles` map built by source lines 112-121: a key file's
content is present exactly when the file occurs in the listing and its
fetch succeeded (a fetch failure is caught and the file left absent). -/
def configFilesOf (files : List FileEntry) (fetch : String → Option String)
    (fileName : String) : Option String :=
  if keyFiles.contains fileName && files.any (fun f => f.path == fileName) then
    fetch fileName
  else none

/-- Node.js detection step (source lines 124-134). `JSON.parse` is the
`jsonParse` oracle; a `none` parse models the `SyntaxError` it throws,
which nothing in `detectTechStack` catches, so the whole detection fails. -/
def nodeChunk (cf : String → Option String)
    (jsonParse : String → Option PackageJson) :
    Except String (List TechStackEntry) :=
  match cf "package.json" with
  | none => .ok []
  | some s =>
    if s = "" then .ok []
    else
      match jsonParse s with
      | some pkg => .ok [nodeEntry pkg]
      | none => .error "Unexpected token in JSON"

/-- Python detection step (source lines 137-148). -/
def pythonChunk (cf : String → Option String) : List TechStackEntry :=
  match cf "requirements.txt" with
  | none => []
  | some s => if s = "" then [] else [pythonEntry s]

/-- Go detection step (source lines 151-159). -/
def goChunk (cf : String → Option String) : List TechStackEntry :=
  match cf "go.mod" with
  | none => []
  | some s => if s = "" then [] else [goEntry s]

/-- Java detection step (source lines 163-170). -/
def javaChunk (cf : String → Option String) : List TechStackEntry :=
  if truthy (cf "pom.xml") || truthy (cf "build.gradle") then
    [javaEntry (truthy (cf "pom.xml"))]
  else []

/-- Ruby detection step (source lines 173-179). -/
def rubyChunk (cf : String → Option String) : List TechStackEntry :=
  match cf "Gemfile" with
  | none => []
  | some s => if s = "" then [] else [rubyEntry s]

/-- Rust detection step (source lines 183-189). -/
def rustChunk (cf : String → Option String) : List TechStackEntry :=
  if truthy (cf "Cargo.toml") then [rustEntry] else []

/-- PHP detection step (source lines 192-198): composer manifest or any
`.php` path. -/
def phpChunk (cf : String → Option String) (files : List FileEntry) :
    List TechStackEntry :=
  if truthy (cf "composer.json") || files.any (fun f => strEndsWith f.path ".php") then
    [phpEntry]
  else []

/-- Dart detection step (source lines 201-207). -/
def dartChunk (cf : String → Option String) : List TechStackEntry :=
  if truthy (cf "pubspec.yaml") then [dartEntry] else []

/-- Docker detection step (source lines 210-216). -/
def dockerChunk (files : List FileEntry) : List TechStackEntry :=
  if files.any (fun f => f.path == "Dockerfile") then [dockerEntry] else []

/-- `RepositoryAnalyzer.detectTechStack` (source lines 95-219): the nine
detection steps run in source order and their entries accumulate in that
order; only the Node step can throw (via `JSON.parse`). -/
def detectTechStack (files : List FileEntry) (fetch : String → Option String)
    (jsonParse : String → Option PackageJson) :
    Except String (List TechStackEntry) :=
  let cf := configFilesOf files fetch
  match nodeChunk cf jsonParse with
  | .error e => .error e
  | .ok node =>
    .ok (node ++ pythonChunk cf ++ goChunk cf ++ javaChunk cf ++ rubyChunk cf ++
      rustChunk cf ++ phpChunk cf files ++ dartChunk cf ++ dockerChunk files)

/-- Database path heuristic (source lines 225-229). -/
def hasDatabasePred (f : FileEntry) : Bool :=
  jsIncludes f.path "database" || jsIncludes f.path "db" ||
    jsIncludes f.path "migration"

/-- Redis path heuristic (source line 240). -/
def hasRedisPred (f : FileEntry) : Bool := jsIncludes f.path "redis"

/-- Web-entry-point heuristic (source lines 250-256). -/
def hasWebPred (f : FileEntry) : Bool :=
  jsIncludes f.path "server" || jsIncludes f.path "app" ||
    f.name == "index.js" || f.name == "main.py" || f.name == "app.py"

/-- A file path/name satisfying any of the three service heuristics. -/
def serviceMatching (f : FileEntry) : Bool :=
  hasDatabasePred f || hasRedisPred f || hasWebPred f

/-- The database service entry (source lines 232-236). -/
def dbServiceEntry : ServiceEntry := { name := "Database", type := "postgres", port := 5432 }

/-- The Redis service entry (source lines 242-246). -/
def redisServiceEntry : ServiceEntry := { name := "Redis", type := "redis", port := 6379 }

/-- The web-server service entry (source lines 259-263). -/
def webServiceEntry : ServiceEntry := { name := "Web Server", type := "web", port := 3000 }

/-- `RepositoryAnalyzer.detectServices` (source lines 221-267): at most one
entry per heuristic, pushed in the fixed order database, redis, web. -/
def detectServices (files : List FileEntry) : List ServiceEntry :=
  (if files.any hasDatabasePred then [dbServiceEntry] else []) ++
    (if files.any hasRedisPred then [redisServiceEntry] else []) ++
      (if files.any hasWebPred then [webServiceEntry] else [])

/-- `RepositoryAnalyzer.extractPorts` (source lines 281-283). -/
def extractPorts (services : List ServiceEntry) : List Nat :=
  services.map (fun s => s.port)

/-- The threshold bucketing of `estimateSetupTime` (source lines 291-294),
taken over minutes scaled by 2 (the source computes
`1 + 0.5 * techStack.length + 1 * services.length` in floating point,
which is exact for half-integer values, so doubling embeds it in `Nat`:
the source thresholds 2, 5, 10 become 4, 10, 20). -/
def setupBucket (halfMinutes : Nat) : String :=
  if halfMinutes < 4 then "1-2 minutes"
  else if halfMinutes < 10 then "2-5 minutes"
  else if halfMinutes < 20 then "5-10 minutes"
  else "10+ minutes"

/-- `RepositoryAnalyzer.estimateSetupTime` (source lines 285-295). -/
def estimateSetupTime (techStack : List TechStackEntry)
    (services : List ServiceEntry) : String :=
  setupBucket (2 + techStack.length + 2 * services.length)

/-- The pure tail of `RepositoryAnalyzer.analyzeRepository` (source lines
23-39) once the listing and manifest contents are resolved: the spec's
`detect : FileListing × ManifestSet → StackProfile`. The repository
metadata (owner, name, description) is passed through. -/
def detect (files : List FileEntry) (fetch : String → Option String)
    (jsonParse : String → Option PackageJson)
    (owner repoName description : String) : Except String StackProfile :=
  match detectTechStack files fetch jsonParse with
  | .error e => .error e
  | .ok techStack =>
    let services := detectServices files
    .ok { owner := owner, name := repoName, description := description,
          files := files.map (fun f => f.path),
          techStack := techStack, services := services,
          ports := extractPorts services,
          hasDocker := files.any (fun f => f.path == "Dockerfile"),
          hasTests := files.any (fun f => jsIncludes f.path "test"),
          estimatedSetupTime := estimateSetupTime techStack services }

/-- A fetch oracle on which every fetch fails (nothing retrievable). -/
def noFetch : String → Option String := fun _ => none

/-- A JSON-parse oracle on which every parse fails; instantiating the
`JSON.parse` oracle with it is faithful whenever it is only ever applied
to texts that are not valid JSON. -/
def noParse : String → Option PackageJson := fun _ => none

/-! ## Artifact synthesizer: orchestration document
(`LabspaceGenerator.generateDockerCompose`, source lines 336-399; the
object built there is serialized by the external `yaml` library behind a
comment header, so the document is embedded as the object itself) -/

/-- The primary application service block (`compose.services.app`). -/
structure AppService where
  build : String
  ports : List String
  volumes : List String
  environment : List String
  depends_on : List String
deriving DecidableEq, Repr

/-- The database service block (`compose.services.db`). -/
structure DbService where
  image : String
  environment : List String
  ports : List String
  volumes : List String
deriving DecidableEq, Repr

/-- The cache service block (`compose.services.redis`). -/
structure RedisService where
  image : String
  ports : List String
deriving DecidableEq, Repr

/-- The compose document object (source lines 339-342 plus the blocks
added afterwards); `volumes` is the document-root persisted-volume
declaration, holding its keys (`{db_data: {}}` contributes the single
key `db_data`). -/
structure Compose where
  version : String
  app : Option AppService
  db : Option DbService
  redis : Option RedisService
  volumes : Option (List String)
deriving DecidableEq, Repr

/-- The port-mapping string `` `${host}:${container}` `` interpolated at
source line 349. -/
def composePortMapping (host container : Nat) : String :=
  toString host ++ ":" ++ toString container

/-- The resolved application port:
`services.find(s => s.type === 'web')?.port || 3000` (source line 349;
JS `||` makes an absent web service, and a port of 0, fall back to 3000). -/
def resolvedAppPort (services : List ServiceEntry) : Nat :=
  jsOrNat ((services.find? (fun s => s.type == "web")).map (fun s => s.port)) 3000

/-- The database block pushed at source lines 363-372. -/
def dbBlock : DbService :=
  { image := "postgres:13",
    environment := ["POSTGRES_DB=appdb", "POSTGRES_USER=user", "POSTGRES_PASSWORD=password"],
    ports := ["5432:5432"],
    volumes := ["db_data:/var/lib/postgresql/data"] }

/-- The cache block pushed at source lines 381-384. -/
def redisBlock : RedisService :=
  { image := "redis:6-alpine", ports := ["6379:6379"] }

/-- `LabspaceGenerator.generateDockerCompose` (source lines 336-399).
The app block exists exactly when `techStack[0]` does; the source
evaluates the resolved-port expression once per side of the mapping;
`depends_on` receives `db` then `redis` in push order, each guarded by
the app block's existence; the root `volumes` key is added exactly when
a database service was detected. -/
def generateDockerCompose (repoData : StackProfile) : Compose :=
  let app0 : Option AppService :=
    match repoData.techStack with
    | [] => none
    | _ :: _ =>
      some { build := ".",
             ports := [composePortMapping (resolvedAppPort repoData.services)
                        (resolvedAppPort repoData.services)],
             volumes := [".:/workspace"],
             environment := ["NODE_ENV=development"],
             depends_on := [] }
  let hasDb := repoData.services.any (fun s => s.name == "Database")
  let hasRedis := repoData.services.any (fun s => s.name == "Redis")
  let app1 := if hasDb then
      app0.map (fun a => { a with depends_on := a.depends_on ++ ["db"] })
    else app0
  let app2 := if hasRedis then
      app1.map (fun a => { a with depends_on := a.depends_on ++ ["redis"] })
    else app1
  { version := "3.8",
    app := app2,
    db := if hasDb then some dbBlock else none,
    redis := if hasRedis then some redisBlock else none,
    volumes := if hasDb then some ["db_data"] else none }

/-! ## Artifact synthesizer: container/IDE descriptor
(`generateDevContainer`, source lines 401-428) -/

/-- `getRecommendedExtensions` (source lines 535-556): base entry plus
per-stack additions in stack order. -/
def getRecommendedExtensions (techStack : List TechStackEntry) : List String :=
  ["ms-vscode.vscode-json"] ++
    (techStack.map (fun tech =>
      if tech.name = "Node.js" then
        ["ms-vscode.vscode-typescript-next", "esbenp.prettier-vscode"]
      else if tech.name = "Python" then ["ms-python.python"]
      else if tech.name = "Go" then ["golang.go"]
      else if tech.name = "Docker" then ["ms-azuretools.vscode-docker"]
      else [])).flatten

/-- `getPostCreateCommand` (source lines 558-576): the per-stack install
commands joined with `&&`. -/
def getPostCreateCommand (techStack : List TechStackEntry) : String :=
  String.intercalate " && "
    ((techStack.map (fun tech =>
      if tech.name = "Node.js" then ["npm install"]
      else if tech.name = "Python" then ["pip install -r requirements.txt"]
      else if tech.name = "Go" then ["go mod tidy"]
      else [])).flatten)

/-- The devcontainer document (source lines 405-425); serialized by the
external `JSON.stringify`. -/
structure DevContainer where
  name : String
  dockerComposeFile : String
  service : String
  workspaceFolder : String
  extensions : List String
  forwardPorts : List Nat
  postCreateCommand : String
  remoteUser : String
deriving DecidableEq, Repr

/-- `LabspaceGenerator.generateDevContainer` (source lines 401-428). -/
def generateDevContainer (repoData : StackProfile) : DevContainer :=
  { name := repoData.name ++ " Development Environment",
    dockerComposeFile := "../docker-compose.yml",
    service := "app",
    workspaceFolder := "/workspace",
    extensions := getRecommendedExtensions repoData.techStack,
    forwardPorts := repoData.services.map (fun s => s.port),
    postCreateCommand := getPostCreateCommand repoData.techStack,
    remoteUser := "root" }

/-! ## Artifact synthesizer: editor settings and extension list
(`generateVSCodeSettings` / `generateVSCodeExtensions`,
source lines 430-503) -/

/-- A JSON scalar as used by the settings object. -/
inductive JVal
  | s : String → JVal
  | n : Nat → JVal
  | b : Bool → JVal
deriving DecidableEq, Repr

/-- JS object-property assignment on an insertion-ordered object: an
existing key is overwritten in place, a new key appended. -/
def jsSet (obj : List (String × JVal)) (k : String) (v : JVal) :
    List (String × JVal) :=
  if obj.any (fun p => p.1 == k) then
    obj.map (fun p => if p.1 == k then (k, v) else p)
  else obj ++ [(k, v)]

/-- The base settings object (source lines 431-437). -/
def baseSettings : List (String × JVal) :=
  [("editor.tabSize", JVal.n 2),
   ("editor.insertSpaces", JVal.b true),
   ("files.autoSave", JVal.s "onDelay"),
   ("files.autoSaveDelay", JVal.n 1000),
   ("terminal.integrated.cwd", JVal.s "$\x7bworkspaceFolder\x7d")]

/-- The per-stack settings overlay (the switch at source lines 440-454). -/
def applyTechSettings (st : List (String × JVal)) (techName : String) :
    List (String × JVal) :=
  if techName = "Node.js" then
    jsSet (jsSet st "typescript.preferences.quoteStyle" (JVal.s "single"))
      "javascript.preferences.quoteStyle" (JVal.s "single")
  else if techName = "Python" then
    jsSet (jsSet st "python.defaultInterpreterPath" (JVal.s "/usr/local/bin/python"))
      "python.formatting.provider" (JVal.s "black")
  else if techName = "Go" then
    jsSet st "go.toolsManagement.autoUpdate" (JVal.b true)
  else st

/-- `LabspaceGenerator.generateVSCodeSettings` (source lines 430-457). -/
def generateVSCodeSettings (repoData : StackProfile) : List (String × JVal) :=
  repoData.techStack.foldl (fun st tech => applyTechSettings st tech.name)
    baseSettings

/-- `LabspaceGenerator.generateVSCodeExtensions` (source lines 459-503):
per-stack recommendations in stack order, then three general entries. -/
def generateVSCodeExtensions (repoData : StackProfile) : List String :=
  (repoData.techStack.map (fun tech =>
    if tech.name = "Node.js" then
      ["ms-vscode.vscode-node-debug2", "esbenp.prettier-vscode",
       "ms-vscode.vscode-typescript-next"]
    else if tech.name = "Python" then ["ms-python.python", "ms-python.flake8"]
    else if tech.name = "Go" then ["golang.go"]
    else if tech.name = "Java" then ["redhat.java", "vscjava.vscode-java-pack"]
    else if tech.name = "Docker" then ["ms-azuretools.vscode-docker"]
    else [])).flatten ++
    ["ms-vscode.vscode-json", "redhat.vscode-yaml", "ms-vscode.vscode-eslint"]

/-! ## Artifact synthesizer: guide document
(`generateReadme`, source line 505-507: one fixed template string; the
interpolated fragments are embedded as a structured document) -/

/-- One tech-stack line of the guide:
`` `- **${tech.name}** ${tech.version ? `(${tech.version})` : ''}` ``. -/
def techLine (tech : TechStackEntry) : String :=
  "- **" ++ tech.name ++ "** " ++
    (if tech.version = "" then "" else "(" ++ tech.version ++ ")")

/-- One service-URL line of the guide:
`` `- **${service.name}**: http://localhost:${service.port}` `` — each
line interpolates that service's own `port` field. -/
def serviceUrlLine (service : ServiceEntry) : String :=
  "- **" ++ service.name ++ "**: http://localhost:" ++ toString service.port

/-- The guide document's interpolated fragments (source lines 505-507).
`dbServicesLine`/`redisServicesLine` come from
`repoData.services.includes('Database')` (and `'Redis'`): `includes`
compares the service objects against a string with SameValueZero, which
never holds, so both conditionals always yield the empty string. -/
structure ReadmeDoc where
  title : String
  repoRef : String
  techLines : List String
  serviceLines : List String
  testsCommand : String
  dbServicesLine : String
  redisServicesLine : String
  generatedOn : String
deriving DecidableEq, Repr

/-- `LabspaceGenerator.generateReadme` (source lines 505-507); `today` is
the external clock's `new Date().toLocaleDateString()`. -/
def generateReadme (repoData : StackProfile) (today : String) : ReadmeDoc :=
  { title := "# " ++ repoData.name ++ " - Development Environment",
    repoRef := repoData.owner ++ "/" ++ repoData.name,
    techLines := repoData.techStack.map techLine,
    serviceLines := repoData.services.map serviceUrlLine,
    testsCommand := if repoData.hasTests then "npm test" else "# No tests detected",
    dbServicesLine := "",
    redisServicesLine := "",
    generatedOn := today }

/-! ## Artifact synthesizer: startup script
(`generateStartupScript`, source lines 509-533) -/

/-- The script header (source line 511). -/
def startupHeader (repoName : String) : String :=
  "#!/bin/bash\n\n# Generated startup script for " ++ repoName ++
    "\necho \"🚀 Starting " ++ repoName ++ " development environment...\"\n\n"

/-- The Node.js install-and-run block (source line 517). -/
def nodeStartupBlock : String :=
  "\n# Install Node.js dependencies\nif [ -f \"package.json\" ]; then\n    echo \"📦 Installing Node.js dependencies...\"\n    npm install\n    \n    # Start the application\n    if npm run dev > /dev/null 2>&1; then\n        echo \"🎯 Starting development server...\"\n        npm run dev\n    elif npm start > /dev/null 2>&1; then\n        echo \"🎯 Starting application...\"\n        npm start\n    else\n        echo \"🎯 Starting with node...\"\n        node index.js || node server.js || node app.js\n    fi\nfi\n"

/-- The Python install-and-run block (source line 521). -/
def pythonStartupBlock : String :=
  "\n# Install Python dependencies\nif [ -f \"requirements.txt\" ]; then\n    echo \"🐍 Installing Python dependencies...\"\n    pip install -r requirements.txt\n    \n    # Start the application\n    echo \"🎯 Starting Python application...\"\n    python app.py || python main.py || python server.py\nfi\n"

/-- The Go install-and-run block (source line 525). -/
def goStartupBlock : String :=
  "\n# Install Go dependencies\nif [ -f \"go.mod\" ]; then\n    echo \"🐹 Installing Go dependencies...\"\n    go mod tidy\n    \n    # Start the application\n    echo \"🎯 Starting Go application...\"\n    go run .\nfi\n"

/-- The block appended for one stack entry (the switch at source lines
514-528; other stack names append nothing). -/
def stackStartupBlock (techName : String) : String :=
  if techName = "Node.js" then nodeStartupBlock
  else if techName = "Python" then pythonStartupBlock
  else if techName = "Go" then goStartupBlock
  else ""

/-- The final status line of the script, for a given interpolated port;
source line 530 hardcodes the literal 3000 in it. -/
def startupFinalStatusLine (port : Nat) : String :=
  "echo \"🌐 Access your application at: http://localhost:" ++ toString port ++ "\"\n"

/-- The script footer appended at source line 530. -/
def startupFooter : String :=
  "\necho \"✅ Application started successfully!\"\n" ++ startupFinalStatusLine 3000

/-- `LabspaceGenerator.generateStartupScript` (source lines 509-533). -/
def generateStartupScript (repoData : StackProfile) : String :=
  startupHeader repoData.name ++
    String.join (repoData.techStack.map (fun tech => stackStartupBlock tech.name)) ++
    startupFooter

/-! ## Artifact synthesizer: the six-slot bundle
(`generateLabspace`, source lines 308-334; the ZIP packaging of the
mapping is the external `archiver`) -/

/-- The content of one generated artifact slot, as the structured value
each generator renders (the rendering to YAML/JSON text is done by the
external `yaml` and `JSON.stringify` libraries). -/
inductive ArtifactContent
  | composeDoc : Compose → ArtifactContent
  | devcontainerDoc : DevContainer → ArtifactContent
  | settingsDoc : List (String × JVal) → ArtifactContent
  | extensionsDoc : List String → ArtifactContent
  | readmeDoc : ReadmeDoc → ArtifactContent
  | scriptDoc : String → ArtifactContent
deriving DecidableEq, Repr

/-- `LabspaceGenerator.generateLabspace` (source lines 308-334): the six
artifact slots in insertion order, each produced by its generator. -/
def generateLabspace (repoData : StackProfile) (today : String) :
    List (String × ArtifactContent) :=
  [("docker-compose.yml", ArtifactContent.composeDoc (generateDockerCompose repoData)),
   (".devcontainer/devcontainer.json",
     ArtifactContent.devcontainerDoc (generateDevContainer repoData)),
   (".vscode/settings.json", ArtifactContent.settingsDoc (generateVSCodeSettings repoData)),
   (".vscode/extensions.json",
     ArtifactContent.extensionsDoc (generateVSCodeExtensions repoData)),
   ("LABSPACE.md", ArtifactContent.readmeDoc (generateReadme repoData today)),
   ("scripts/start.sh", ArtifactContent.scriptDoc (generateStartupScript repoData))]

/-- The six output paths, in slot order (source lines 312-325). -/
def labspaceSlotPaths : List String :=
  ["docker-compose.yml", ".devcontainer/devcontainer.json",
   ".vscode/settings.json", ".vscode/extensions.json", "LABSPACE.md",
   "scripts/start.sh"]

/-! ## Spec-side reference definitions (used to state the claims) -/

/-- The detector-table order asserted by the spec (claim C2), with the
container-runtime slot third and a .NET-family slot ninth, written with
the detector's entry names (the .NET slot keeps the placeholder name
".NET", which no detector ever produces). -/
def specClaimOrder : List String :=
  ["Node.js", "Python", "Docker", "Java", "Go", "Ruby", "PHP", "Rust",
   ".NET", "Dart/Flutter"]

/-- The order in which the source's detection steps actually run. -/
def codeStackOrder : List String :=
  ["Node.js", "Python", "Go", "Java", "Ruby", "Rust", "PHP",
   "Dart/Flutter", "Docker"]

/-- The recognized manifest filenames of spec section 6: the nine key
files plus the container build file. -/
def recognizedManifestNames : List String := keyFiles ++ ["Dockerfile"]

/-- Modelled from the spec: the setup-time formula as section 4.1 words
it — base 1 unit, +0.5 per stack entry, +1 per service entry, bucketed by
the thresholds 2, 5, 10 — computed over exact rationals. -/
def specSetupEstimate (stackCount serviceCount : Nat) : String :=
  let m : ℚ := 1 + (stackCount : ℚ) * 0.5 + (serviceCount : ℚ) * 1
  if m < 2 then "1-2 minutes"
  else if m < 5 then "2-5 minutes"
  else if m < 10 then "5-10 minutes"
  else "10+ minutes"

/-- The rank of a setup-time bucket, for stating monotonicity. -/
def bucketRank (bucket : String) : Nat :=
  if bucket = "1-2 minutes" then 0
  else if bucket = "2-5 minutes" then 1
  else if bucket = "5-10 minutes" then 2
  else 3

/-! ## Concrete inputs used to settle the individual claims -/

/-- C1 counterexample listing: a Go module, a database-flavoured path and
a web entry point. -/
def filesC1 : List FileEntry :=
  [{ path := "go.mod", name := "go.mod" },
   { path := "src/db/init.sql", name := "init.sql" },
   { path := "server.js", name := "server.js" }]

/-- C1 counterexample fetch oracle. -/
def fetchC1 : String → Option String :=
  fun n => if n = "go.mod" then some "module m\n\ngo 1.22\n" else none

/-- The profile `detect` produces on the C1 counterexample inputs. -/
def profC1 : StackProfile :=
  { owner := "o", name := "r", description := "",
    files := ["go.mod", "src/db/init.sql", "server.js"],
    techStack := [{ name := "Go", icon := "🐹", version := "1.22" }],
    services := [dbServiceEntry, webServiceEntry],
    ports := [5432, 3000],
    hasDocker := false, hasTests := false,
    estimatedSetupTime := "2-5 minutes" }

/-- C2 counterexample listing: Go module and Maven descriptor together. -/
def filesC2 : List FileEntry :=
  [{ path := "go.mod", name := "go.mod" }, { path := "pom.xml", name := "pom.xml" }]

/-- C2 counterexample fetch oracle. -/
def fetchC2 : String → Option String :=
  fun n =>
    if n = "go.mod" then some "go 1.21\n"
    else if n = "pom.xml" then some "<project/>" else none

/-- The stack `detectTechStack` yields on the C2 counterexample inputs. -/
def stackC2 : List TechStackEntry :=
  [{ name := "Go", icon := "🐹", version := "1.21" },
   { name := "Java", icon := "☕", version := "11+", buildTool := some "Maven" }]

/-- C3 counterexample listing: one PHP source file and nothing else. -/
def filesC3 : List FileEntry := [{ path := "index.php", name := "index.php" }]

/-- C3 witness listing: a single unrecognized, service-neutral file. -/
def filesC3w : List FileEntry := [{ path := "LICENSE", name := "LICENSE" }]

/-- C4 counterexample profile: a database service but an empty tech
stack, as `detect` produces on a listing containing only
`migrations/001.sql`. -/
def profC4 : StackProfile :=
  { owner := "o", name := "r", description := "",
    files := ["migrations/001.sql"],
    techStack := [], services := [dbServiceEntry], ports := [5432],
    hasDocker := false, hasTests := false,
    estimatedSetupTime := "2-5 minutes" }

/-- C4 witness profile: a database service and a non-empty tech stack. -/
def profC4w : StackProfile :=
  { owner := "o", name := "r", description := "",
    files := ["db/schema.sql", "Cargo.toml"],
    techStack := [rustEntry], services := [dbServiceEntry], ports := [5432],
    hasDocker := false, hasTests := false,
    estimatedSetupTime := "2-5 minutes" }

/-- C5 failing listing: a Node package descriptor is present. -/
def filesC5 : List FileEntry :=
  [{ path := "package.json", name := "package.json" }]

/-- C5 failing fetch oracle: the package descriptor's text is the
malformed (non-JSON) `{invalid`. -/
def fetchC5 : String → Option String :=
  fun n => if n = "package.json" then some "\x7binvalid" else none

/-- C7 counterexample requirements text: nine dependency lines, the first
carrying a compatible-release specifier (`~=`), which the builder's
`split('==')[0].split('>=')[0]` does not strip. -/
def contentC7 : String := "flask~=2.0\na\nb\nc\nd\ne\nf\ng\nh"

/-- C7 counterexample listing. -/
def filesC7 : List FileEntry :=
  [{ path := "requirements.txt", name := "requirements.txt" }]

/-- C7 counterexample fetch oracle. -/
def fetchC7 : String → Option String :=
  fun n => if n = "requirements.txt" then some contentC7 else none

/-- C7 witness requirements text. -/
def contentC7w : String := "numpy==1.0\npandas>=2"

/-- C7 witness listing. -/
def filesC7w : List FileEntry :=
  [{ path := "requirements.txt", name := "requirements.txt" }]

/-- C7 witness fetch oracle. -/
def fetchC7w : String → Option String :=
  fun n => if n = "requirements.txt" then some contentC7w else none

/-- C7 witness package descriptor: ten runtime and six development
dependencies declared. -/
def pkgC7w : PackageJson :=
  { enginesNode := none,
    dependencies := ["a", "b", "c", "d", "e", "f", "g", "h", "i", "j"],
    devDependencies := ["u", "v", "w", "x", "y", "z"],
    scripts := [] }

/-- C8 scenario listing: a Go module file and `cmd/server/main.go`. -/
def filesC8 : List FileEntry :=
  [{ path := "go.mod", name := "go.mod" },
   { path := "cmd/server/main.go", name := "main.go" }]

/-- C8 scenario fetch oracle: the module file declares `go 1.21`. -/
def fetchC8 : String → Option String :=
  fun n => if n = "go.mod" then some "module example.com/m\n\ngo 1.21\n" else none

/-- The profile `detect` produces on the C8 scenario inputs. -/
def profC8 : StackProfile :=
  { owner := "o", name := "r", description := "",
    files := ["go.mod", "cmd/server/main.go"],
    techStack := [{ name := "Go", icon := "🐹", version := "1.21" }],
    services := [webServiceEntry],
    ports := [3000],
    hasDocker := false, hasTests := false,
    estimatedSetupTime := "2-5 minutes" }

/-- C9 witness listing: one database-flavoured path. -/
def filesC9w : List FileEntry := [{ path := "db/x", name := "x" }]

/-- C10 witness profile: empty tech stack with database and cache
services present. -/
def profC10 : StackProfile :=
  { owner := "o", name := "r", description := "",
    files := ["db/cache/redis.conf"],
    techStack := [], services := [dbServiceEntry, redisServiceEntry],
    ports := [5432, 6379],
    hasDocker := false, hasTests := false,
    estimatedSetupTime := "5-10 minutes" }

/-! ## Helper lemmas -/

/-- A string append ends with its right operand. -/
theorem strEndsWith_append_right (a b : String) : strEndsWith (a ++ b) b = true := by
  simp [strEndsWith, String.data_append, List.isSuffixOf_iff_suffix]

/-- The scaled bucketing agrees with the spec's fractional formula. -/
theorem setupBucket_eq_spec (t s : Nat) :
    setupBucket (2 + t + 2 * s) = specSetupEstimate t s := by
  have h1 : ((1 : ℚ) + (t : ℚ) * 0.5 + (s : ℚ) * 1 < 2) ↔ (2 + t + 2 * s < 4) := by
    constructor
    · intro h
      have h2 : ((2 + t + 2 * s : ℕ) : ℚ) < 4 := by push_cast; linarith
      exact_mod_cast h2
    · intro h
      have h2 : ((2 + t + 2 * s : ℕ) : ℚ) < 4 := by exact_mod_cast h
      push_cast at h2; linarith
  have h2 : ((1 : ℚ) + (t : ℚ) * 0.5 + (s : ℚ) * 1 < 5) ↔ (2 + t + 2 * s < 10) := by
    constructor
    · intro h
      have h2 : ((2 + t + 2 * s : ℕ) : ℚ) < 10 := by push_cast; linarith
      exact_mod_cast h2
    · intro h
      have h2 : ((2 + t + 2 * s : ℕ) : ℚ) < 10 := by exact_mod_cast h
      push_cast at h2; linarith
  have h3 : ((1 : ℚ) + (t : ℚ) * 0.5 + (s : ℚ) * 1 < 10) ↔ (2 + t + 2 * s < 20) := by
    constructor
    · intro h
      have h2 : ((2 + t + 2 * s : ℕ) : ℚ) < 20 := by push_cast; linarith
      exact_mod_cast h2
    · intro h
      have h2 : ((2 + t + 2 * s : ℕ) : ℚ) < 20 := by exact_mod_cast h
      push_cast at h2; linarith
  simp only [setupBucket, specSetupEstimate, h1, h2, h3]

/-- Bucket rank is monotone in the scaled minute count. -/
theorem bucketRank_setupBucket_mono {h h' : Nat} (hle : h ≤ h') :
    bucketRank (setupBucket h) ≤ bucketRank (setupBucket h') := by
  unfold setupBucket
  split_ifs <;> first | decide | omega

/-! ## Claim C5 -/

/-- C5: the claim says stack-entry builders never throw on malformed
manifest content. The code contradicts it: `detectTechStack` calls
`JSON.parse` on the fetched package descriptor with no try/catch (source
line 125), so the malformed text `{invalid` makes the whole detection
fail; the spec's stated degradation to default field values is the
intent, the unguarded parse a slip. This theorem evaluates the embedded
detection at that failing input and shows the error outcome. -/
theorem C5_code_bug_eval :
    detectTechStack filesC5 fetchC5 noParse = Except.error "Unexpected token in JSON" := by
  rfl

/-! ## Claim C6 -/

/-- C6: the setup-time estimate implements exactly the spec's count-based
formula (base 1 unit, +0.5 per stack entry, +1 per service entry,
thresholds 2/5/10), and its bucket is monotone in the stack-entry count
and in the service-entry count separately. -/
theorem C6_confirmed :
    (∀ (ts : List TechStackEntry) (ss : List ServiceEntry),
      estimateSetupTime ts ss = specSetupEstimate ts.length ss.length) ∧
    (∀ (ts ts' : List TechStackEntry) (ss : List ServiceEntry),
      ts.length ≤ ts'.length →
        bucketRank (estimateSetupTime ts ss) ≤ bucketRank (estimateSetupTime ts' ss)) ∧
    (∀ (ts : List TechStackEntry) (ss ss' : List ServiceEntry),
      ss.length ≤ ss'.length →
        bucketRank (estimateSetupTime ts ss) ≤ bucketRank (estimateSetupTime ts ss')) := by
  refine ⟨fun ts ss => setupBucket_eq_spec ts.length ss.length, ?_, ?_⟩
  · intro ts ts' ss hle
    exact bucketRank_setupBucket_mono (by omega)
  · intro ts ss ss' hle
    exact bucketRank_setupBucket_mono (by omega)

/-- Witness for C6 at concrete inputs. -/
theorem C6_witness :
    estimateSetupTime [] [] = specSetupEstimate 0 0 ∧
    bucketRank (estimateSetupTime [] []) ≤
      bucketRank (estimateSetupTime [rustEntry] []) ∧
    bucketRank (estimateSetupTime [] []) ≤
      bucketRank (estimateSetupTime [] [dbServiceEntry]) :=
  ⟨C6_confirmed.1 [] [],
   C6_confirmed.2.1 [] [rustEntry] [] (by decide),
   C6_confirmed.2.2 [] [] [dbServiceEntry] (by decide)⟩

/-! ## Claim C8 -/

/-- C8: on a listing with a Go module file declaring `go 1.21` and the
path `cmd/server/main.go`, detection yields a Go entry with version
`1.21` and exactly one web-service entry with the fixed default port
3000, and the generated orchestration document's primary service maps
that port identically on both sides. -/
theorem C8_confirmed :
    detect filesC8 fetchC8 noParse "o" "r" "" = Except.ok profC8 ∧
    profC8.techStack = [{ name := "Go", icon := "🐹", version := "1.21" }] ∧
    profC8.services = [webServiceEntry] ∧
    webServiceEntry.port = 3000 ∧
    (generateDockerCompose profC8).app.map (fun a => a.ports) =
      some [composePortMapping 3000 3000] ∧
    composePortMapping 3000 3000 = "3000:3000" :=
  ⟨rfl, rfl, rfl, rfl, rfl, rfl⟩

/-! ## Claim C10 -/

/-- C10: a profile with an empty tech-stack sequence generates an
orchestration document with no primary application block at all, while
the database and cache blocks are still emitted exactly when the
corresponding services are present. -/
theorem C10_confirmed (p : StackProfile) (h : p.techStack = []) :
    (generateDockerCompose p).app = none ∧
    ((generateDockerCompose p).db =
      if p.services.any (fun s => s.name == "Database") then some dbBlock else none) ∧
    ((generateDockerCompose p).redis =
      if p.services.any (fun s => s.name == "Redis") then some redisBlock else none) := by
  simp only [generateDockerCompose, h]
  refine ⟨?_, ?_, ?_⟩ <;> first | trivial | (split_ifs <;> rfl)

/-- Witness for C10 at a concrete profile. -/
theorem C10_witness :
    (generateDockerCompose profC10).app = none ∧
    (generateDockerCompose profC10).db = some dbBlock ∧
    (generateDockerCompose profC10).redis = some redisBlock := by
  have h := C10_confirmed profC10 rfl
  simpa using h

/-! ## Claim C4 -/

/-- C4 counterexample: `detect` can produce a profile with a database
service and an empty tech stack (e.g. from a listing containing only
`migrations/001.sql`); on it the orchestration document has no primary
application block at all, so no dependency list contains the database
block, refuting the claim as stated — even though the single
persisted-volume root entry is present. -/
theorem C4_counterexample :
    detect [{ path := "migrations/001.sql", name := "001.sql" }] noFetch noParse
        "o" "r" "" = Except.ok profC4 ∧
    profC4.services.any (fun s => s.name == "Database") = true ∧
    (generateDockerCompose profC4).app = none ∧
    (generateDockerCompose profC4).volumes = some ["db_data"] :=
  ⟨rfl, rfl, rfl, rfl⟩

/-- C4 amended: for every profile, the persisted-volume root entry exists
if and only if the database block was added; with a database service the
root declaration is exactly the single entry `db_data`, and — provided
the tech-stack sequence is non-empty, so that a primary application
block exists at all — the primary block's dependency list contains the
database service block. -/
theorem C4_amended (p : StackProfile) :
    ((generateDockerCompose p).volumes.isSome ↔ (generateDockerCompose p).db.isSome) ∧
    (p.services.any (fun s => s.name == "Database") = true →
      (generateDockerCompose p).volumes = some ["db_data"] ∧
      (p.techStack ≠ [] →
        ∃ a, (generateDockerCompose p).app = some a ∧ "db" ∈ a.depends_on)) := by
  constructor
  · simp only [generateDockerCompose]
    split_ifs <;> simp
  · intro hdb
    constructor
    · simp only [generateDockerCompose, hdb]
      rfl
    · intro hts
      cases hstack : p.techStack with
      | nil => exact absurd hstack hts
      | cons x xs =>
        simp only [generateDockerCompose, hdb, hstack]
        split_ifs <;> exact ⟨_, rfl, by simp⟩

/-- Witness for C4 at a concrete profile with a database service and a
non-empty tech stack. -/
theorem C4_witness :
    (generateDockerCompose profC4w).volumes = some ["db_data"] ∧
    ∃ a, (generateDockerCompose profC4w).app = some a ∧ "db" ∈ a.depends_on := by
  have h := (C4_amended profC4w).2 (by decide)
  exact ⟨h.1, h.2 (by decide)⟩

/-! ## Claim C1 -/

/-- C1 counterexample: on the profile `detect` yields for a listing with
a Go module, a `src/db/init.sql` path and a `server.js` path, the
resolved application port is 3000 and the orchestration mapping uses it
on both sides, but the guide document's Database service-URL line
interpolates that service's own port 5432 — so the resolved port is not
referenced identically by every service-URL line, refuting the claim. -/
theorem C1_counterexample :
    detect filesC1 fetchC1 noParse "o" "r" "" = Except.ok profC1 ∧
    resolvedAppPort profC1.services = 3000 ∧
    (generateDockerCompose profC1).app.map (fun a => a.ports) =
      some [composePortMapping 3000 3000] ∧
    serviceUrlLine dbServiceEntry ∈ (generateReadme profC1 "1/1/2026").serviceLines ∧
    serviceUrlLine dbServiceEntry = "- **Database**: http://localhost:5432" ∧
    dbServiceEntry.port ≠ resolvedAppPort profC1.services :=
  ⟨rfl, rfl, rfl, by decide, rfl, by decide⟩

/-- C1 amended: the orchestration document's primary port mapping uses
the single resolved application port identically on both sides (when a
primary block exists at all); each service-URL line of the guide
document interpolates that service's own port, not the resolved port;
and the startup script's final status line always references the fixed
literal port 3000. -/
theorem C1_amended (p : StackProfile) (today : String) :
    ((generateDockerCompose p).app.map (fun a => a.ports) =
      if p.techStack.isEmpty then none
      else some [composePortMapping (resolvedAppPort p.services)
        (resolvedAppPort p.services)]) ∧
    ((generateReadme p today).serviceLines = p.services.map serviceUrlLine) ∧
    strEndsWith (generateStartupScript p) (startupFinalStatusLine 3000) = true := by
  refine ⟨?_, rfl, ?_⟩
  · cases hstack : p.techStack with
    | nil => simp [generateDockerCompose, hstack]
    | cons x xs =>
      simp only [generateDockerCompose, hstack, List.isEmpty_cons,
        Bool.false_eq_true, if_false]
      split_ifs <;> rfl
  · have hscript : generateStartupScript p =
        (startupHeader p.name ++
          (String.join (p.techStack.map (fun tech => stackStartupBlock tech.name)) ++
            "\necho \"✅ Application started successfully!\"\n")) ++
          startupFinalStatusLine 3000 := by
      simp only [generateStartupScript, startupFooter, String.append_assoc]
    rw [hscript]
    exact strEndsWith_append_right _ _

/-! ## Claim C9 -/

/-- Every service entry `detectServices` emits is one of the three fixed
entries. -/
theorem mem_detectServices {files : List FileEntry} {s : ServiceEntry}
    (h : s ∈ detectServices files) :
    s = dbServiceEntry ∨ s = redisServiceEntry ∨ s = webServiceEntry := by
  unfold detectServices at h
  rcases List.mem_append.1 h with h1 | h2
  · rcases List.mem_append.1 h1 with h3 | h4
    · left
      revert h3; split_ifs <;> simp
    · right; left
      revert h4; split_ifs <;> simp
  · right; right
    revert h2; split_ifs <;> simp

/-- C9: service default ports are static per service type — across any
two analyses, two detected service entries of the same type carry the
same port, and the per-type ports are the fixed 5432 / 6379 / 3000. -/
theorem C9_confirmed :
    dbServiceEntry.port = 5432 ∧
    redisServiceEntry.port = 6379 ∧
    webServiceEntry.port = 3000 ∧
    (∀ (files1 files2 : List FileEntry) (s1 s2 : ServiceEntry),
      s1 ∈ detectServices files1 → s2 ∈ detectServices files2 →
        s1.type = s2.type → s1.port = s2.port) := by
  refine ⟨rfl, rfl, rfl, ?_⟩
  intro files1 files2 s1 s2 h1 h2 htype
  rcases mem_detectServices h1 with e1 | e1 | e1 <;>
    rcases mem_detectServices h2 with e2 | e2 | e2 <;>
      subst e1 <;> subst e2 <;> first | rfl | (exact absurd htype (by decide))

/-- Witness for C9 at concrete listings. -/
theorem C9_witness :
    dbServiceEntry ∈ detectServices filesC9w ∧
    dbServiceEntry.port = dbServiceEntry.port :=
  ⟨by decide,
   C9_confirmed.2.2.2 filesC9w filesC9w dbServiceEntry dbServiceEntry
     (by decide) (by decide) rfl⟩

/-! ## Claim C2 -/

/-- The Node detection step contributes at most a `Node.js` entry. -/
theorem nodeChunk_names_sub {cf : String → Option String}
    {jp : String → Option PackageJson} {node : List TechStackEntry}
    (h : nodeChunk cf jp = Except.ok node) :
    (node.map (fun e => e.name)).Sublist ["Node.js"] := by
  unfold nodeChunk at h
  cases hc : cf "package.json" <;> rw [hc] at h <;> dsimp only at h
  · injection h with h'
    subst h'
    simp
  · split_ifs at h with hs
    · injection h with h'
      subst h'
      simp
    · cases hj : jp _ <;> rw [hj] at h <;> dsimp only at h
      · cases h
      · injection h with h'
        subst h'
        simp [nodeEntry]

/-- The Python detection step contributes at most a `Python` entry. -/
theorem pythonChunk_names_sub (cf : String → Option String) :
    ((pythonChunk cf).map (fun e => e.name)).Sublist ["Python"] := by
  unfold pythonChunk
  cases cf "requirements.txt"
  · simp
  · dsimp only
    split_ifs <;> simp [pythonEntry]

/-- The Go detection step contributes at most a `Go` entry. -/
theorem goChunk_names_sub (cf : String → Option String) :
    ((goChunk cf).map (fun e => e.name)).Sublist ["Go"] := by
  unfold goChunk
  cases cf "go.mod"
  · simp
  · dsimp only
    split_ifs <;> simp [goEntry]

/-- The Java detection step contributes at most a `Java` entry. -/
theorem javaChunk_names_sub (cf : String → Option String) :
    ((javaChunk cf).map (fun e => e.name)).Sublist ["Java"] := by
  unfold javaChunk
  split_ifs <;> simp [javaEntry]

/-- The Ruby detection step contributes at most a `Ruby` entry. -/
theorem rubyChunk_names_sub (cf : String → Option String) :
    ((rubyChunk cf).map (fun e => e.name)).Sublist ["Ruby"] := by
  unfold rubyChunk
  cases cf "Gemfile"
  · simp
  · dsimp only
    split_ifs <;> simp [rubyEntry]

/-- The Rust detection step contributes at most a `Rust` entry. -/
theorem rustChunk_names_sub (cf : String → Option String) :
    ((rustChunk cf).map (fun e => e.name)).Sublist ["Rust"] := by
  unfold rustChunk
  split_ifs <;> simp [rustEntry]

/-- The PHP detection step contributes at most a `PHP` entry. -/
theorem phpChunk_names_sub (cf : String → Option String) (files : List FileEntry) :
    ((phpChunk cf files).map (fun e => e.name)).Sublist ["PHP"] := by
  unfold phpChunk
  split_ifs <;> simp [phpEntry]

/-- The Dart detection step contributes at most a `Dart/Flutter` entry. -/
theorem dartChunk_names_sub (cf : String → Option String) :
    ((dartChunk cf).map (fun e => e.name)).Sublist ["Dart/Flutter"] := by
  unfold dartChunk
  split_ifs <;> simp [dartEntry]

/-- The Docker detection step contributes at most a `Docker` entry. -/
theorem dockerChunk_names_sub (files : List FileEntry) :
    ((dockerChunk files).map (fun e => e.name)).Sublist ["Docker"] := by
  unfold dockerChunk
  split_ifs <;> simp [dockerEntry]

/-- C2 counterexample: on a listing with a Go module and a Maven
descriptor, detection emits the Go entry before the Java entry (source
runs the Go step at lines 151-159, the Java step at lines 163-170), but
the claim's trigger-table order places Java (4th) before Go (5th) — so
the output sequence is not a subsequence of the claimed order. -/
theorem C2_counterexample :
    detectTechStack filesC2 fetchC2 noParse = Except.ok stackC2 ∧
    stackC2.map (fun e => e.name) = ["Go", "Java"] ∧
    ¬ (["Go", "Java"].Sublist specClaimOrder) :=
  ⟨rfl, rfl, by decide⟩

/-- C2 amended: detected entries always appear in the order the source's
detection steps run — Node.js, Python, Go, Java, Ruby, Rust, PHP,
Dart/Flutter, and the container-runtime entry last — with unsatisfied
triggers skipped; no .NET-family detection exists, so every entry name
is drawn from that nine-slot list. -/
theorem C2_amended (files : List FileEntry) (fetch : String → Option String)
    (jp : String → Option PackageJson) (ts : List TechStackEntry)
    (h : detectTechStack files fetch jp = Except.ok ts) :
    ((ts.map (fun e => e.name)).Sublist codeStackOrder) ∧
    (∀ e ∈ ts, e.name ∈ codeStackOrder) := by
  unfold detectTechStack at h
  dsimp only at h
  cases hn : nodeChunk (configFilesOf files fetch) jp <;> rw [hn] at h <;>
    dsimp only at h
  · cases h
  case ok node =>
    injection h with h'
    subst h'
    have hs : ((node ++ pythonChunk (configFilesOf files fetch) ++
        goChunk (configFilesOf files fetch) ++
        javaChunk (configFilesOf files fetch) ++
        rubyChunk (configFilesOf files fetch) ++
        rustChunk (configFilesOf files fetch) ++
        phpChunk (configFilesOf files fetch) files ++
        dartChunk (configFilesOf files fetch) ++
        dockerChunk files).map (fun e => e.name)).Sublist
        (["Node.js"] ++ ["Python"] ++ ["Go"] ++ ["Java"] ++ ["Ruby"] ++
          ["Rust"] ++ ["PHP"] ++ ["Dart/Flutter"] ++ ["Docker"]) := by
      simp only [List.map_append]
      exact ((((((((nodeChunk_names_sub hn).append
        (pythonChunk_names_sub _)).append
        (goChunk_names_sub _)).append
        (javaChunk_names_sub _)).append
        (rubyChunk_names_sub _)).append
        (rustChunk_names_sub _)).append
        (phpChunk_names_sub _ _)).append
        (dartChunk_names_sub _)).append
        (dockerChunk_names_sub _)
    constructor
    · simpa [codeStackOrder] using hs
    · intro e he
      have hmem := List.mem_map_of_mem (fun e => e.name) he
      have hsub := hs.subset hmem
      simpa [codeStackOrder] using hsub

/-- Witness for C2 at the concrete Go-plus-Maven listing. -/
theorem C2_witness :
    (stackC2.map (fun e => e.name)).Sublist codeStackOrder ∧
    ∀ e ∈ stackC2, e.name ∈ codeStackOrder :=
  C2_amended filesC2 fetchC2 noParse stackC2 rfl

/-! ## Claim C3 -/

/-- If no listed path equals a given name, the name's config-file slot is
absent. -/
theorem any_path_eq_false {files : List FileEntry} {nm : String}
    (hmem : nm ∈ recognizedManifestNames)
    (h1 : ∀ f ∈ files, f.path ∉ recognizedManifestNames) :
    files.any (fun f => f.path == nm) = false := by
  rw [List.any_eq_false]
  intro f hf hEq
  refine h1 f hf ?_
  rw [eq_of_beq hEq]
  exact hmem

/-- A name no listed path carries yields no fetched config content. -/
theorem configFilesOf_eq_none {files : List FileEntry}
    {fetch : String → Option String} {nm : String}
    (h : files.any (fun f => f.path == nm) = false) :
    configFilesOf files fetch nm = none := by
  unfold configFilesOf
  rw [h]
  simp

/-- C3 counterexample: the listing containing only `index.php` has zero
recognized manifest filenames and zero service-matching paths, yet
detection returns a non-empty tech-stack sequence (the PHP entry, whose
trigger is the `.php` path suffix, not a manifest), refuting the claim. -/
theorem C3_counterexample :
    (∀ f ∈ filesC3, f.path ∉ recognizedManifestNames) ∧
    (∀ f ∈ filesC3, serviceMatching f = false) ∧
    detectTechStack filesC3 noFetch noParse = Except.ok [phpEntry] ∧
    ([phpEntry] : List TechStackEntry) ≠ [] :=
  ⟨by decide, by decide, rfl, by decide⟩

/-- C3 amended: on a listing with zero recognized manifest filenames,
zero service-matching paths, and no path ending in `.php`, detection
yields a profile with empty tech-stack and service sequences, and
synthesis on that profile still returns exactly the six artifact slots. -/
theorem C3_amended (files : List FileEntry) (fetch : String → Option String)
    (jp : String → Option PackageJson) (owner repoName description today : String)
    (h1 : ∀ f ∈ files, f.path ∉ recognizedManifestNames)
    (h2 : ∀ f ∈ files, serviceMatching f = false)
    (h3 : ∀ f ∈ files, strEndsWith f.path ".php" = false) :
    ∃ p, detect files fetch jp owner repoName description = Except.ok p ∧
      p.techStack = [] ∧ p.services = [] ∧
      (generateLabspace p today).map Prod.fst = labspaceSlotPaths ∧
      (generateLabspace p today).length = 6 := by
  have hany : ∀ nm ∈ recognizedManifestNames,
      files.any (fun f => f.path == nm) = false :=
    fun nm hmem => any_path_eq_false hmem h1
  have hcf1 : configFilesOf files fetch "package.json" = none :=
    configFilesOf_eq_none (hany _ (by decide))
  have hcf2 : configFilesOf files fetch "requirements.txt" = none :=
    configFilesOf_eq_none (hany _ (by decide))
  have hcf3 : configFilesOf files fetch "Gemfile" = none :=
    configFilesOf_eq_none (hany _ (by decide))
  have hcf4 : configFilesOf files fetch "go.mod" = none :=
    configFilesOf_eq_none (hany _ (by decide))
  have hcf5 : configFilesOf files fetch "pom.xml" = none :=
    configFilesOf_eq_none (hany _ (by decide))
  have hcf6 : configFilesOf files fetch "build.gradle" = none :=
    configFilesOf_eq_none (hany _ (by decide))
  have hcf7 : configFilesOf files fetch "Cargo.toml" = none :=
    configFilesOf_eq_none (hany _ (by decide))
  have hcf8 : configFilesOf files fetch "composer.json" = none :=
    configFilesOf_eq_none (hany _ (by decide))
  have hcf9 : configFilesOf files fetch "pubspec.yaml" = none :=
    configFilesOf_eq_none (hany _ (by decide))
  have hdockerfile : files.any (fun f => f.path == "Dockerfile") = false :=
    hany _ (by decide)
  have hphp : files.any (fun f => strEndsWith f.path ".php") = false := by
    rw [List.any_eq_false]
    intro f hf
    simp [h3 f hf]
  have hstack : detectTechStack files fetch jp = Except.ok [] := by
    unfold detectTechStack
    dsimp only
    rw [show nodeChunk (configFilesOf files fetch) jp = Except.ok [] from by
      unfold nodeChunk; rw [hcf1]]
    rw [show pythonChunk (configFilesOf files fetch) = [] from by
      unfold pythonChunk; rw [hcf2]]
    rw [show goChunk (configFilesOf files fetch) = [] from by
      unfold goChunk; rw [hcf4]]
    rw [show javaChunk (configFilesOf files fetch) = [] from by
      unfold javaChunk; rw [hcf5, hcf6]; rfl]
    rw [show rubyChunk (configFilesOf files fetch) = [] from by
      unfold rubyChunk; rw [hcf3]]
    rw [show rustChunk (configFilesOf files fetch) = [] from by
      unfold rustChunk; rw [hcf7]; rfl]
    rw [show phpChunk (configFilesOf files fetch) files = [] from by
      unfold phpChunk; rw [hcf8, hphp]; rfl]
    rw [show dartChunk (configFilesOf files fetch) = [] from by
      unfold dartChunk; rw [hcf9]; rfl]
    rw [show dockerChunk files = [] from by
      unfold dockerChunk; rw [hdockerfile]; rfl]
    rfl
  have hserv : detectServices files = [] := by
    have hdb : files.any hasDatabasePred = false := by
      rw [List.any_eq_false]
      intro f hf
      have hm := h2 f hf
      simp only [serviceMatching, Bool.or_eq_false_iff] at hm
      simp [hm.1.1]
    have hredis : files.any hasRedisPred = false := by
      rw [List.any_eq_false]
      intro f hf
      have hm := h2 f hf
      simp only [serviceMatching, Bool.or_eq_false_iff] at hm
      simp [hm.1.2]
    have hweb : files.any hasWebPred = false := by
      rw [List.any_eq_false]
      intro f hf
      have hm := h2 f hf
      simp only [serviceMatching, Bool.or_eq_false_iff] at hm
      simp [hm.2]
    unfold detectServices
    rw [hdb, hredis, hweb]
    simp
  unfold detect
  rw [hstack]
  dsimp only
  exact ⟨_, rfl, rfl, hserv, rfl, rfl⟩

/-- Witness for C3 at a concrete neutral listing. -/
theorem C3_witness :
    ∃ p, detect filesC3w noFetch noParse "o" "r" "" = Except.ok p ∧
      p.techStack = [] ∧ p.services = [] ∧
      (generateLabspace p "1/1/2026").map Prod.fst = labspaceSlotPaths ∧
      (generateLabspace p "1/1/2026").length = 6 :=
  C3_amended filesC3w noFetch noParse "o" "r" "" "1/1/2026"
    (by decide) (by decide) (by decide)

/-! ## Claim C7 -/

/-- Membership in a conditional singleton chunk pins the entry. -/
theorem mem_ite_singleton {c : Prop} [Decidable c] {x e : TechStackEntry}
    (h : e ∈ (if c then [x] else [])) : e = x := by
  split_ifs at h <;> simp_all

/-- Bounds for entries of the Node detection step. -/
theorem mem_nodeChunk_bounds {cf : String → Option String}
    {jp : String → Option PackageJson} {node : List TechStackEntry}
    {e : TechStackEntry} (hn : nodeChunk cf jp = Except.ok node)
    (h : e ∈ node) : e.dependencies.length ≤ 10 ∧ e.devDependencies.length ≤ 5 := by
  unfold nodeChunk at hn
  cases hc : cf "package.json" <;> rw [hc] at hn <;> dsimp only at hn
  · injection hn with hn'
    subst hn'
    cases h
  · split_ifs at hn
    · injection hn with hn'
      subst hn'
      cases h
    · cases hj : jp _ <;> rw [hj] at hn <;> dsimp only at hn
      · cases hn
      · injection hn with hn'
        subst hn'
        simp only [List.mem_singleton] at h
        subst h
        constructor
        · simp only [nodeEntry, List.length_take]
          omega
        · simp only [nodeEntry, List.length_take]
          omega

/-- Bounds for entries of the Python detection step. -/
theorem mem_pythonChunk_bounds {cf : String → Option String}
    {e : TechStackEntry} (h : e ∈ pythonChunk cf) :
    e.dependencies.length ≤ 10 ∧ e.devDependencies.length ≤ 5 := by
  unfold pythonChunk at h
  cases hc : cf "requirements.txt" <;> rw [hc] at h <;> dsimp only at h
  · cases h
  · split_ifs at h
    · cases h
    · simp only [List.mem_singleton] at h
      subst h
      constructor
      · simp only [pythonEntry, requirementLines, List.length_map, List.length_take]
        omega
      · simp [pythonEntry]

/-- Bounds for entries of the Go detection step. -/
theorem mem_goChunk_bounds {cf : String → Option String}
    {e : TechStackEntry} (h : e ∈ goChunk cf) :
    e.dependencies.length ≤ 10 ∧ e.devDependencies.length ≤ 5 := by
  unfold goChunk at h
  cases hc : cf "go.mod" <;> rw [hc] at h <;> dsimp only at h
  · cases h
  · split_ifs at h
    · cases h
    · simp only [List.mem_singleton] at h
      subst h
      simp [goEntry]

/-- Bounds for entries of the Ruby detection step. -/
theorem mem_rubyChunk_bounds {cf : String → Option String}
    {e : TechStackEntry} (h : e ∈ rubyChunk cf) :
    e.dependencies.length ≤ 10 ∧ e.devDependencies.length ≤ 5 := by
  unfold rubyChunk at h
  cases hc : cf "Gemfile" <;> rw [hc] at h <;> dsimp only at h
  · cases h
  · split_ifs at h
    · cases h
    · simp only [List.mem_singleton] at h
      subst h
      simp [rubyEntry]

/-- C7 counterexample: a requirements file with nine dependency lines
(the first using the unhandled `~=` specifier) yields a Python entry
whose runtime dependency list has nine elements — more than the claimed
bound of 8 — and whose first element still carries its specifier. -/
theorem C7_counterexample :
    detectTechStack filesC7 fetchC7 noParse = Except.ok [pythonEntry contentC7] ∧
    (pythonEntry contentC7).dependencies =
      ["flask~=2.0", "a", "b", "c", "d", "e", "f", "g", "h"] ∧
    8 < (pythonEntry contentC7).dependencies.length :=
  ⟨rfl, rfl, by decide⟩

/-- C7 amended: the Node builder keeps the first 8 runtime and the first
5 development dependency names (prefixes of the manifest's key order, so
order is preserved); the Python builder keeps the first 10 filtered
requirement lines, mapped through the `==`/`>=`-stripping-and-trimming
projection, preserving order; and every entry any detection yields obeys
the bounds 10 (runtime) and 5 (development). -/
theorem C7_amended :
    (∀ pkg : PackageJson,
      (nodeEntry pkg).dependencies <+: pkg.dependencies ∧
      (nodeEntry pkg).dependencies.length ≤ 8 ∧
      (nodeEntry pkg).devDependencies <+: pkg.devDependencies ∧
      (nodeEntry pkg).devDependencies.length ≤ 5) ∧
    (∀ s : String,
      (pythonEntry s).dependencies =
        ((pythonFilteredLines s).take 10).map stripSpecifier ∧
      (pythonEntry s).dependencies <+: (pythonFilteredLines s).map stripSpecifier ∧
      (pythonEntry s).dependencies.length ≤ 10) ∧
    (∀ (files : List FileEntry) (fetch : String → Option String)
        (jp : String → Option PackageJson) (ts : List TechStackEntry),
      detectTechStack files fetch jp = Except.ok ts →
      ∀ e ∈ ts, e.dependencies.length ≤ 10 ∧ e.devDependencies.length ≤ 5) := by
  refine ⟨?_, ?_, ?_⟩
  · intro pkg
    refine ⟨⟨pkg.dependencies.drop 8, List.take_append_drop 8 _⟩, ?_,
      ⟨pkg.devDependencies.drop 5, List.take_append_drop 5 _⟩, ?_⟩
    · simp only [nodeEntry, List.length_take]
      omega
    · simp only [nodeEntry, List.length_take]
      omega
  · intro s
    refine ⟨rfl, ?_, ?_⟩
    · exact List.IsPrefix.map stripSpecifier
        ⟨(pythonFilteredLines s).drop 10, List.take_append_drop 10 _⟩
    · simp only [pythonEntry, requirementLines, List.length_map, List.length_take]
      omega
  · intro files fetch jp ts h e he
    unfold detectTechStack at h
    dsimp only at h
    cases hn : nodeChunk (configFilesOf files fetch) jp <;> rw [hn] at h <;>
      dsimp only at h
    · cases h
    case ok node =>
      injection h with h'
      subst h'
      rcases List.mem_append.1 he with he | he
      rcases List.mem_append.1 he with he | he
      rcases List.mem_append.1 he with he | he
      rcases List.mem_append.1 he with he | he
      rcases List.mem_append.1 he with he | he
      rcases List.mem_append.1 he with he | he
      rcases List.mem_append.1 he with he | he
      rcases List.mem_append.1 he with he | he
      · exact mem_nodeChunk_bounds hn he
      · exact mem_pythonChunk_bounds he
      · exact mem_goChunk_bounds he
      · rw [mem_ite_singleton he]
        simp [javaEntry]
      · exact mem_rubyChunk_bounds he
      · rw [mem_ite_singleton he]
        simp [rustEntry]
      · rw [mem_ite_singleton he]
        simp [phpEntry]
      · rw [mem_ite_singleton he]
        simp [dartEntry]
      · rw [mem_ite_singleton he]
        simp [dockerEntry]

/-- Witness for C7 at concrete inputs. -/
theorem C7_witness :
    (nodeEntry pkgC7w).dependencies <+: pkgC7w.dependencies ∧
    (pythonEntry contentC7w).dependencies.length ≤ 10 ∧
    ((pythonEntry contentC7w).dependencies.length ≤ 10 ∧
      (pythonEntry contentC7w).devDependencies.length ≤ 5) :=
  ⟨(C7_amended.1 pkgC7w).1,
   (C7_amended.2.1 contentC7w).2.2,
   C7_amended.2.2 filesC7w fetchC7w noParse [pythonEntry contentC7w] rfl
     (pythonEntry contentC7w) (by simp)⟩
